import Mathlib

/-!
Verification of `ig_posts_fecther.py`: a resumable Instagram post fetcher.

We shallowly embed the program's data model and operations:

* `PyVal` models Python values obtained from `json.load` (JSON null becomes
  Python `None`); numbers are restricted to integers, which is all the
  program ever manipulates.
* `FileData` models the raw content of a file on disk: either text that
  fails to parse as JSON (`malformed`, carrying the raw text, so an empty
  file is `malformed ""`), or a parsed JSON document (`json v`).
* `FS` models the filesystem as a partial map from paths to file contents;
  `none` means the file does not exist (`os.path.exists` is false).
* `PyErr` models the Python exceptions the embedded code can raise;
  fallible operations return `Except PyErr _`.
* The network is an oracle `Net` mapping the request's pagination cursor
  (absent when the Python code omits the `after` variable) to an outcome:
  a raised exception from `requests.get`, or an HTTP response with a
  status code and a body.
-/

inductive PyVal where
  | none
  | bool (b : Bool)
  | int (n : Int)
  | str (s : String)
  | list (elems : List PyVal)
  | dict (fields : List (String × PyVal))

inductive PyErr where
  | jsonDecodeError
  | attributeError
  | typeError
  | networkError
deriving DecidableEq, Repr

/-- Raw content of a file: text that is not valid JSON, or a parsed JSON
document. An empty file is `malformed ""` (the empty string is not JSON). -/
inductive FileData where
  | malformed (raw : String)
  | json (v : PyVal)

/-- The filesystem: `none` means the path does not exist. -/
def FS : Type := String → Option FileData

/-- Overwrite (or create) the file at `path`. -/
def FS.write (fs : FS) (path : String) (d : FileData) : FS :=
  fun p => if p = path then some d else fs p

/-- Model of `json.load` on the raw file content: raises `json.JSONDecodeError`
on text that is not valid JSON, otherwise yields the parsed value. -/
def json_load : FileData → Except PyErr PyVal
  | .malformed _ => .error .jsonDecodeError
  | .json v => .ok v

/-- Lookup in a Python dict built by `json.load`: with duplicate keys the
later occurrence wins, hence the search from the right. -/
def dictGet (fields : List (String × PyVal)) (key : String) (dft : PyVal) : PyVal :=
  match fields.reverse.find? (fun p => p.1 = key) with
  | some p => p.2
  | Option.none => dft

/-- Python's `x.get(key, default)`: only dicts have `.get`; on any other
value it raises `AttributeError`. -/
def PyVal.get : PyVal → String → PyVal → Except PyErr PyVal
  | .dict fields, key, dft => .ok (dictGet fields key dft)
  | _, _, _ => .error .attributeError

/-- Python truthiness of a value (`if x:`). -/
def PyVal.truthy : PyVal → Bool
  | .none => false
  | .bool b => b
  | .int n => n != 0
  | .str s => s != ""
  | .list elems => !elems.isEmpty
  | .dict fields => !fields.isEmpty

/-- Python `x += 1`: defined on ints (and bools, which are ints);
anything else raises `TypeError`. -/
def pyIncr : PyVal → Except PyErr PyVal
  | .int n => .ok (.int (n + 1))
  | .bool b => .ok (.int ((if b then 1 else 0) + 1))
  | _ => .error .typeError

/-- Python `xs.append v`: only lists have `.append`; on any other value
it raises `AttributeError`. -/
def pyAppend : PyVal → PyVal → Except PyErr PyVal
  | .list elems, v => .ok (.list (elems ++ [v]))
  | _, _ => .error .attributeError

/-- Python `for x in v`: lists yield their elements, strings their
characters, dicts their keys; other values raise `TypeError`. -/
def pyIter : PyVal → Except PyErr (List PyVal)
  | .list elems => .ok elems
  | .str s => .ok (s.toList.map (fun c => .str (String.mk [c])))
  | .dict fields => .ok (fields.map (fun p => .str p.1))
  | _ => .error .typeError

/-- Model of `load_resume_state(resume_file)` (source lines 107-111): if the file
exists, `json.load` it (no exception handler: a decode error propagates)
and return `(state.get("after_cursor"), state.get("post_count", 0))`;
otherwise return `(None, 0)`. -/
def load_resume_state (fs : FS) (resume_file : String) : Except PyErr (PyVal × PyVal) :=
  match fs resume_file with
  | some d =>
    match json_load d with
    | .error e => .error e
    | .ok state =>
      match state.get "after_cursor" PyVal.none with
      | .error e => .error e
      | .ok a =>
        match state.get "post_count" (.int 0) with
        | .error e => .error e
        | .ok c => .ok (a, c)
  | Option.none => .ok (PyVal.none, .int 0)

/-- Model of `save_resume_state(resume_file, after_cursor, post_count)` (source
lines 131-136): overwrite the file with the JSON object
`{"after_cursor": after_cursor, "post_count": post_count}`. -/
def save_resume_state (fs : FS) (resume_file : String)
    (after_cursor post_count : PyVal) : FS :=
  fs.write resume_file
    (.json (.dict [("after_cursor", after_cursor), ("post_count", post_count)]))

/-- Model of `load_existing_posts(output_file)` (source lines 159-165): absent file
gives `[]`; otherwise `json.load` inside `try/except json.JSONDecodeError`,
a decode error giving `[]`; the parsed value is returned verbatim. The
result is `Except` so that "raises" is representable; the only possible
error, `JSONDecodeError`, is caught, so the function in fact always
returns `.ok`. -/
def load_existing_posts (fs : FS) (output_file : String) : Except PyErr PyVal :=
  match fs output_file with
  | some d =>
    match json_load d with
    | .ok v => .ok v
    | .error .jsonDecodeError => .ok (.list [])
    | .error e => .error e
  | Option.none => .ok (.list [])

/-- The cursor actually placed in the request's `variables`: the source
adds the `after` key only when `if after_cursor:` is truthy (line 62). -/
def request_cursor (after_cursor : PyVal) : Option PyVal :=
  if after_cursor.truthy then some after_cursor else none

/-- Outcome of one `requests.get`: a raised network exception, or an HTTP
response carrying a status code and a body (raw text, parsed on demand by
`response.json()`). -/
inductive NetOutcome where
  | exception
  | response (status : Nat) (body : FileData)

/-- The remote endpoint, as an oracle from the request's cursor (absent
when the `after` variable is omitted) to an outcome. Username and batch
size are fixed for a run, so they are not part of the request model. -/
def Net : Type := Option PyVal → NetOutcome

/-- Model of `fetch_instagram_posts` (source lines 78-85): one GET; on status 200
return `response.json()` (which raises on a malformed body), otherwise
print a diagnostic and return `None`. A raised exception from
`requests.get` propagates (`.error .networkError`). -/
def fetch_instagram_posts (net : Net) (after_cursor : PyVal) :
    Except PyErr (Option PyVal) :=
  match net (request_cursor after_cursor) with
  | .exception => .error .networkError
  | .response status body =>
    if status = 200 then
      match json_load body with
      | .ok v => .ok (some v)
      | .error e => .error e
    else
      .ok none

/-- The shared access path (source lines 225-227 / 246-248):
`response.get("data", {}).get("xdt_api__v1__feed__user_timeline_graphql_connection", {})`. -/
def connection_of (response : PyVal) : Except PyErr PyVal :=
  match response.get "data" (.dict []) with
  | .error e => .error e
  | .ok d => d.get "xdt_api__v1__feed__user_timeline_graphql_connection" (.dict [])

/-- Model of `... .get("edges", [])` (source lines 225-227). -/
def extract_edges (response : PyVal) : Except PyErr PyVal :=
  match connection_of response with
  | .error e => .error e
  | .ok conn => conn.get "edges" (.list [])

/-- Model of `... .get("page_info", \x7b\x7d)` (source lines 246-248). -/
def extract_page_info (response : PyVal) : Except PyErr PyVal :=
  match connection_of response with
  | .error e => .error e
  | .ok conn => conn.get "page_info" (.dict [])

/-- Model of the edge loop, `for edge in edges: ...append(edge.get("node"))... += 1`
(source lines 235-238), threading the Python locals `all_posts` and
`downloaded_count`. -/
def process_edges : List PyVal → PyVal → PyVal → Except PyErr (PyVal × PyVal)
  | [], all_posts, downloaded_count => .ok (all_posts, downloaded_count)
  | edge :: rest, all_posts, downloaded_count =>
    match edge.get "node" (.dict []) with
    | .error e => .error e
    | .ok node =>
      match pyAppend all_posts node with
      | .error e => .error e
      | .ok all_posts' =>
        match pyIncr downloaded_count with
        | .error e => .error e
        | .ok downloaded_count' => process_edges rest all_posts' downloaded_count'

/-- The Python locals of `iterate_and_save_posts` at the head of the
`while True` loop, together with the filesystem. -/
structure LoopState where
  fs : FS
  allPosts : PyVal
  afterCursor : PyVal
  downloadedCount : PyVal

/-- Outcome of one iteration of the `while True` body: `halt` is a
`break`, `next` continues with the updated locals. -/
inductive StepOut where
  | halt (s : LoopState)
  | next (s : LoopState)

/-- One iteration of the `while True` body (source lines 212-256). An
uncaught Python exception is `.error (e, fs)` where `fs` is the
filesystem at the moment of the raise (the output file written on line
241-242 persists even if a later line raises). -/
def loop_body (net : Net) (output_file resume_file : String) (s : LoopState) :
    Except (PyErr × FS) StepOut :=
  match fetch_instagram_posts net s.afterCursor with
  | .error e => .error (e, s.fs)
  | .ok resp =>
    let respPy := resp.getD PyVal.none
    if respPy.truthy = false then
      .ok (.halt s)
    else
      match extract_edges respPy with
      | .error e => .error (e, s.fs)
      | .ok edges =>
        if edges.truthy = false then
          .ok (.halt s)
        else
          match pyIter edges with
          | .error e => .error (e, s.fs)
          | .ok items =>
            match process_edges items s.allPosts s.downloadedCount with
            | .error e => .error (e, s.fs)
            | .ok (posts', count') =>
              let fs1 := s.fs.write output_file (.json posts')
              match extract_page_info respPy with
              | .error e => .error (e, fs1)
              | .ok page_info =>
                match page_info.get "has_next_page" PyVal.none with
                | .error e => .error (e, fs1)
                | .ok hnp =>
                  if hnp.truthy then
                    match page_info.get "end_cursor" PyVal.none with
                    | .error e => .error (e, fs1)
                    | .ok cursor' =>
                      .ok (.next ⟨save_resume_state fs1 resume_file cursor' count',
                                  posts', cursor', count'⟩)
                  else
                    .ok (.halt ⟨fs1, posts', s.afterCursor, count'⟩)

/-- Result of running the loop: it broke out (`done`), the fuel bound was
reached mid-pagination (`fuelOut`), or a Python exception propagated
(`err`, carrying the filesystem at the raise). -/
inductive RunOutcome where
  | done (s : LoopState)
  | fuelOut (s : LoopState)
  | err (e : PyErr) (fs : FS)

/-- The `while True` loop, fuel-indexed (the source imposes no iteration
bound of its own; fuel makes the embedding total). -/
def iterate_loop (net : Net) (output_file resume_file : String) :
    Nat → LoopState → RunOutcome
  | 0, s => .fuelOut s
  | fuel + 1, s =>
    match loop_body net output_file resume_file s with
    | .error (e, fs) => .err e fs
    | .ok (.halt s') => .done s'
    | .ok (.next s') => iterate_loop net output_file resume_file fuel s'

/-- Model of `iterate_and_save_posts` (source lines 168-256): load the existing
posts and the resume state, then run the loop. -/
def iterate_and_save_posts (net : Net) (output_file resume_file : String)
    (fuel : Nat) (fs : FS) : RunOutcome :=
  match load_existing_posts fs output_file with
  | .error e => .err e fs
  | .ok all_posts =>
    match load_resume_state fs resume_file with
    | .error e => .err e fs
    | .ok (after_cursor, downloaded_count) =>
      iterate_loop net output_file resume_file fuel
        ⟨fs, all_posts, after_cursor, downloaded_count⟩

/-- Instrumented copy of `iterate_loop` that also returns, in order, the
`post_count` value of every `save_resume_state` call the run performs
(exactly one per `next` transition, none on `halt` or error — see
`loop_body`). Only the log is new; the outcome component is proven equal
to `iterate_loop` in `iterate_loop_log_fst`. -/
def iterate_loop_log (net : Net) (output_file resume_file : String) :
    Nat → LoopState → RunOutcome × List PyVal
  | 0, s => (.fuelOut s, [])
  | fuel + 1, s =>
    match loop_body net output_file resume_file s with
    | .error (e, fs) => (.err e fs, [])
    | .ok (.halt s') => (.done s', [])
    | .ok (.next s') =>
      let rest := iterate_loop_log net output_file resume_file fuel s'
      (rest.1, s'.downloadedCount :: rest.2)

/-- A feed edge wrapping one post node, as consumed by line 236. -/
def edge_of (node : PyVal) : PyVal := .dict [("node", node)]

/-- A response body of the shape the loop consumes:
`{"data": {"xdt_api__v1__feed__user_timeline_graphql_connection":
{"edges": ..., "page_info": ...}}}`. -/
def page_of (edges : List PyVal) (pinfo : PyVal) : PyVal :=
  .dict [("data", .dict [("xdt_api__v1__feed__user_timeline_graphql_connection",
    .dict [("edges", .list edges), ("page_info", pinfo)])])]

/-- The checkpoint invariant re-established by every `next` transition:
the two files on disk reflect the loop's in-memory locals, so a rerun
reloads exactly this state. -/
def PersistInv (output_file resume_file : String) (s : LoopState) : Prop :=
  load_existing_posts s.fs output_file = .ok s.allPosts ∧
  load_resume_state s.fs resume_file = .ok (s.afterCursor, s.downloadedCount)

/-- Ordering on persisted `post_count` values: both are Python ints and
the first is at most the second. -/
def countLE (a b : PyVal) : Prop :=
  ∃ m k : Int, a = .int m ∧ b = .int k ∧ m ≤ k

/-- Concrete two-page remote used by the C3 witness: the first request (no
cursor) yields one post and cursor `"c1"`; the request with cursor `"c1"`
yields a final page with one post and `has_next_page = false`. -/
def c3net : Net := fun req =>
  match req with
  | Option.none =>
    .response 200 (.json (page_of [edge_of (.dict [("id", .str "A")])]
      (.dict [("has_next_page", .bool true), ("end_cursor", .str "c1")])))
  | some (.str s) =>
    if s = "c1" then
      .response 200 (.json (page_of [edge_of (.dict [("id", .str "B")])]
        (.dict [("has_next_page", .bool false)])))
    else .exception
  | some _ => .exception

/-- The loop state after the first page of `c3net` from an empty
filesystem: both checkpoint files written, one post collected. -/
def c3mid : LoopState :=
  ⟨FS.write (FS.write (fun _ => Option.none) "posts.json"
      (.json (.list [.dict [("id", .str "A")]])))
    "resume.json"
    (.json (.dict [("after_cursor", .str "c1"), ("post_count", .int 1)])),
  .list [.dict [("id", .str "A")]], .str "c1", .int 1⟩

/-- Concrete stored collection of 100 posts for the C2 witness. -/
def c2posts : List PyVal := List.replicate 100 (.dict [("old", .bool true)])

/-- Concrete filesystem for the C2 witness: a state file resuming at
cursor `"abc123"` with 100 posts, and a posts file holding `c2posts`. -/
def c2fs : FS := fun p =>
  if p = "resume.json" then
    some (.json (.dict [("after_cursor", .str "abc123"), ("post_count", .int 100)]))
  else if p = "posts.json" then some (.json (.list c2posts))
  else Option.none

/-- Concrete remote for the C2 witness: every request yields a final page
with exactly 2 edges and `has_next_page = false`. -/
def c2net : Net := fun _ =>
  .response 200 (.json (page_of
    [edge_of (.dict [("id", .str "n1")]), edge_of (.dict [("id", .str "n2")])]
    (.dict [("has_next_page", .bool false)])))

/-! ### Claim C1 -/

/-- C1 (amended): for every state file whose contents are not valid JSON,
loading the pagination state raises `json.JSONDecodeError` (there is no
exception handler in `load_resume_state`, so the error propagates); in
particular it does not return the fresh-start value `(None, 0)`. Only an
absent state file yields `(None, 0)`. -/
theorem C1_malformed_state_raises (fs : FS) (resume_file raw : String)
    (h : fs resume_file = some (.malformed raw)) :
    load_resume_state fs resume_file = .error .jsonDecodeError ∧
    load_resume_state fs resume_file ≠ .ok (PyVal.none, .int 0) ∧
    (∀ fs' : FS, fs' resume_file = Option.none →
      load_resume_state fs' resume_file = .ok (PyVal.none, .int 0)) := by
  refine ⟨by simp [load_resume_state, h, json_load], ?_, ?_⟩
  · simp [load_resume_state, h, json_load]
  · intro fs' h'
    simp [load_resume_state, h']

/-- C1 witness: the amended claim applied to a concrete filesystem whose
state file holds the text `"not-json"`, which is not valid JSON. -/
theorem C1_amended_witness :
    ((fun _ => some (FileData.malformed "not-json")) : FS) "state.json"
        = some (.malformed "not-json") ∧
    (load_resume_state (fun _ => some (.malformed "not-json")) "state.json"
        = .error .jsonDecodeError ∧
      load_resume_state (fun _ => some (.malformed "not-json")) "state.json"
        ≠ .ok (PyVal.none, .int 0) ∧
      (∀ fs' : FS, fs' "state.json" = Option.none →
        load_resume_state fs' "state.json" = .ok (PyVal.none, .int 0))) :=
  ⟨rfl, C1_malformed_state_raises (fun _ => some (.malformed "not-json")) "state.json" "not-json" rfl⟩

/-- C1 counterexample: the claim as stated is false. On the concrete state
file holding the text `"not-json"` (not valid JSON), `load_resume_state` does not
silently return `(None, 0)`: it raises `json.JSONDecodeError`. -/
theorem C1_counterexample :
    load_resume_state (fun _ => some (.malformed "not-json")) "resume.json"
      ≠ .ok (PyVal.none, .int 0) ∧
    load_resume_state (fun _ => some (.malformed "not-json")) "resume.json"
      = .error .jsonDecodeError := by
  exact ⟨by simp [load_resume_state, json_load], rfl⟩

/-! ### Claim C5 -/

/-- C5: for every posts file that is absent, empty (`malformed ""`), or
fails to parse as JSON, `load_existing_posts` returns `.ok []`: the empty
sequence, with `.ok` recording that no exception escapes (the only
possible error, the decode error, is caught by the `try/except`). -/
theorem C5_load_posts_empty (fs : FS) (output_file : String)
    (h : fs output_file = Option.none ∨
         fs output_file = some (.malformed "") ∨
         ∃ raw, fs output_file = some (.malformed raw)) :
    load_existing_posts fs output_file = .ok (.list []) := by
  rcases h with h | h | ⟨raw, h⟩ <;> simp [load_existing_posts, h, json_load]

/-- C5 witness: the claim applied to a concrete filesystem with no posts
file at all. -/
theorem C5_witness :
    (((fun _ => Option.none) : FS) "posts.json" = Option.none ∨
      ((fun _ => Option.none) : FS) "posts.json" = some (.malformed "") ∨
      ∃ raw, ((fun _ => Option.none) : FS) "posts.json" = some (.malformed raw)) ∧
    load_existing_posts (fun _ => Option.none) "posts.json" = .ok (.list []) :=
  ⟨Or.inl rfl, C5_load_posts_empty (fun _ => Option.none) "posts.json" (Or.inl rfl)⟩

/-! ### Claim C6 -/

/-- C6: for every valid state file from which `load_resume_state` reads a
cursor string `c` and a non-negative count `n`, saving those values back
unchanged with `save_resume_state` produces a state file that loads to the
same `(after_cursor, post_count)` pair: the semantic content round-trips. -/
theorem C6_state_roundtrip (fs : FS) (resume_file : String) (c : String) (n : Int)
    (_hload : load_resume_state fs resume_file = .ok (.str c, .int n))
    (_hn : 0 ≤ n) :
    load_resume_state (save_resume_state fs resume_file (.str c) (.int n)) resume_file
      = .ok (.str c, .int n) := by
  simp [load_resume_state, save_resume_state, FS.write, json_load, PyVal.get, dictGet]

/-- C6 witness: the round-trip applied to a concrete valid state file
`{"after_cursor": "abc123", "post_count": 100}`. -/
theorem C6_witness :
    load_resume_state
        (fun _ => some (.json (.dict
          [("after_cursor", .str "abc123"), ("post_count", .int 100)])))
        "resume.json" = .ok (.str "abc123", .int 100) ∧
    (0 : Int) ≤ 100 ∧
    load_resume_state
        (save_resume_state
          (fun _ => some (.json (.dict
            [("after_cursor", .str "abc123"), ("post_count", .int 100)])))
          "resume.json" (.str "abc123") (.int 100))
        "resume.json" = .ok (.str "abc123", .int 100) :=
  ⟨rfl, by norm_num,
    C6_state_roundtrip _ "resume.json" "abc123" 100 rfl (by norm_num)⟩

/-! ### Claim C10 -/

/-- C10: a posts file that parses as JSON but is not a list is returned
verbatim by `load_existing_posts` (there is no shape check after
`json.load`), not replaced by the empty list. -/
theorem C10_load_posts_verbatim (fs : FS) (output_file : String) (v : PyVal)
    (hfile : fs output_file = some (.json v)) (hnl : ∀ xs, v ≠ .list xs) :
    load_existing_posts fs output_file = .ok v ∧ v ≠ .list [] :=
  ⟨by simp [load_existing_posts, hfile, json_load], hnl []⟩

/-- C10 witness: the claim applied to a posts file holding the JSON object
`{"a": 1}`. -/
theorem C10_witness :
    ((fun _ => some (.json (.dict [("a", .int 1)]))) : FS) "posts.json"
        = some (.json (.dict [("a", .int 1)])) ∧
    (∀ xs, PyVal.dict [("a", .int 1)] ≠ .list xs) ∧
    (load_existing_posts (fun _ => some (.json (.dict [("a", .int 1)]))) "posts.json"
        = .ok (.dict [("a", .int 1)]) ∧
      PyVal.dict [("a", .int 1)] ≠ .list []) :=
  ⟨rfl, fun _ h => PyVal.noConfusion h,
    C10_load_posts_verbatim _ "posts.json" _ rfl (fun _ h => PyVal.noConfusion h)⟩

/-! ### Claim C4 -/

/-- C4: if the fetched page parses to a truthy value whose extracted edge
list is falsy (in particular the empty list, also the default `[]` when
the key is missing), the loop breaks at `if not edges:` and returns with
the state it entered the iteration with — in particular the filesystem
`s.fs` is returned untouched, so neither the posts file nor the state file
is written on that iteration. -/
theorem C4_empty_edges_halts (net : Net) (output_file resume_file : String)
    (s : LoopState) (v e : PyVal) (fuel : Nat)
    (hnet : net (request_cursor s.afterCursor) = .response 200 (.json v))
    (hv : v.truthy = true)
    (hedges : extract_edges v = .ok e)
    (he : e.truthy = false) :
    iterate_loop net output_file resume_file (fuel + 1) s = .done s := by
  simp [iterate_loop, loop_body, fetch_instagram_posts, hnet, json_load, hv, hedges, he]

/-- C4 witness: a concrete run whose single page carries an empty `edges`
list; the loop halts with the filesystem untouched. -/
theorem C4_witness :
    (((fun _ => .response 200 (.json (.dict [("data", .dict
        [("xdt_api__v1__feed__user_timeline_graphql_connection", .dict
          [("edges", .list []), ("page_info", .dict [])])])]))) : Net)
      (request_cursor (LoopState.afterCursor ⟨fun _ => Option.none, .list [], PyVal.none, .int 0⟩))
        = .response 200 (.json (.dict [("data", .dict
            [("xdt_api__v1__feed__user_timeline_graphql_connection", .dict
              [("edges", .list []), ("page_info", .dict [])])])]))) ∧
    PyVal.truthy (.dict [("data", .dict
        [("xdt_api__v1__feed__user_timeline_graphql_connection", .dict
          [("edges", .list []), ("page_info", .dict [])])])]) = true ∧
    extract_edges (.dict [("data", .dict
        [("xdt_api__v1__feed__user_timeline_graphql_connection", .dict
          [("edges", .list []), ("page_info", .dict [])])])]) = .ok (.list []) ∧
    PyVal.truthy (.list []) = false ∧
    iterate_loop
        (fun _ => .response 200 (.json (.dict [("data", .dict
          [("xdt_api__v1__feed__user_timeline_graphql_connection", .dict
            [("edges", .list []), ("page_info", .dict [])])])])))
        "posts.json" "resume.json" (0 + 1)
        ⟨fun _ => Option.none, .list [], PyVal.none, .int 0⟩
      = .done ⟨fun _ => Option.none, .list [], PyVal.none, .int 0⟩ :=
  ⟨rfl, rfl, rfl, rfl,
    C4_empty_edges_halts _ "posts.json" "resume.json" _ _ _ 0 rfl rfl rfl rfl⟩

/-! ### Claim C7 -/

/-- C7: on a non-200 HTTP status, `fetch_instagram_posts` returns the
failure indicator `None` after a single request (no retry is expressible:
the function consults the oracle once and returns); the loop then takes
the `if not response:` branch and breaks, returning `.done s` whose
filesystem is the untouched `s.fs`. A network exception likewise stops
iteration with the filesystem untouched (`.err .networkError s.fs`): in
both cases the already-saved files are preserved and no further iteration
occurs. -/
theorem C7_non200_stops (net net2 : Net) (output_file resume_file : String)
    (s : LoopState) (status : Nat) (body : FileData) (fuel : Nat)
    (hnet : net (request_cursor s.afterCursor) = .response status body)
    (hstatus : status ≠ 200)
    (hexc : net2 (request_cursor s.afterCursor) = .exception) :
    fetch_instagram_posts net s.afterCursor = .ok Option.none ∧
    iterate_loop net output_file resume_file (fuel + 1) s = .done s ∧
    iterate_loop net2 output_file resume_file (fuel + 1) s
      = .err .networkError s.fs := by
  refine ⟨?_, ?_, ?_⟩
  · simp [fetch_instagram_posts, hnet, hstatus]
  · simp [iterate_loop, loop_body, fetch_instagram_posts, hnet, hstatus, PyVal.truthy]
  · simp [iterate_loop, loop_body, fetch_instagram_posts, hexc]

/-- C7 witness: a concrete 429 (rate-limited) response and a concrete
network exception, from the initial fresh state. -/
theorem C7_witness :
    (((fun _ => .response 429 (.malformed "rate limited")) : Net)
      (request_cursor (LoopState.afterCursor ⟨fun _ => Option.none, .list [], PyVal.none, .int 0⟩))
        = .response 429 (.malformed "rate limited")) ∧
    (429 : Nat) ≠ 200 ∧
    (((fun _ => .exception) : Net)
      (request_cursor (LoopState.afterCursor ⟨fun _ => Option.none, .list [], PyVal.none, .int 0⟩))
        = .exception) ∧
    (fetch_instagram_posts (fun _ => .response 429 (.malformed "rate limited"))
        (LoopState.afterCursor ⟨fun _ => Option.none, .list [], PyVal.none, .int 0⟩)
        = .ok Option.none ∧
      iterate_loop (fun _ => .response 429 (.malformed "rate limited"))
          "posts.json" "resume.json" (0 + 1)
          ⟨fun _ => Option.none, .list [], PyVal.none, .int 0⟩
        = .done ⟨fun _ => Option.none, .list [], PyVal.none, .int 0⟩ ∧
      iterate_loop (fun _ => .exception) "posts.json" "resume.json" (0 + 1)
          ⟨fun _ => Option.none, .list [], PyVal.none, .int 0⟩
        = .err .networkError
            (LoopState.fs ⟨fun _ => Option.none, .list [], PyVal.none, .int 0⟩)) :=
  ⟨rfl, by decide, rfl,
    C7_non200_stops _ _ "posts.json" "resume.json" _ 429 (.malformed "rate limited") 0
      rfl (by decide) rfl⟩

/-! ### Claim C9 -/

/-- C9: a successful HTTP 200 fetch whose parsed JSON body is falsy (for
example the empty object `{}`) makes `fetch_instagram_posts` return that
body, yet the loop's `if not response:` test — a truthiness test, not a
comparison with `None` — sends it down the "No response received" branch:
the loop breaks exactly as on a failed fetch, with the filesystem
untouched. -/
theorem C9_falsy_body_stops (net : Net) (output_file resume_file : String)
    (s : LoopState) (v : PyVal) (fuel : Nat)
    (hnet : net (request_cursor s.afterCursor) = .response 200 (.json v))
    (hv : v.truthy = false) :
    fetch_instagram_posts net s.afterCursor = .ok (some v) ∧
    iterate_loop net output_file resume_file (fuel + 1) s = .done s := by
  refine ⟨?_, ?_⟩
  · simp [fetch_instagram_posts, hnet, json_load]
  · simp [iterate_loop, loop_body, fetch_instagram_posts, hnet, json_load, hv]

/-- C9 witness: a concrete 200 response whose body is the empty JSON
object `{}`. -/
theorem C9_witness :
    (((fun _ => .response 200 (.json (.dict []))) : Net)
      (request_cursor (LoopState.afterCursor ⟨fun _ => Option.none, .list [], PyVal.none, .int 0⟩))
        = .response 200 (.json (.dict []))) ∧
    PyVal.truthy (.dict []) = false ∧
    (fetch_instagram_posts (fun _ => .response 200 (.json (.dict [])))
        (LoopState.afterCursor ⟨fun _ => Option.none, .list [], PyVal.none, .int 0⟩)
        = .ok (some (.dict [])) ∧
      iterate_loop (fun _ => .response 200 (.json (.dict [])))
          "posts.json" "resume.json" (0 + 1)
          ⟨fun _ => Option.none, .list [], PyVal.none, .int 0⟩
        = .done ⟨fun _ => Option.none, .list [], PyVal.none, .int 0⟩) :=
  ⟨rfl, rfl,
    C9_falsy_body_stops _ "posts.json" "resume.json" _ _ 0 rfl rfl⟩

/-! ### Claim C2 -/

/-- C2: from a state file `{"after_cursor": "abc123", "post_count": 100}`
and a stored collection of 100 posts, a fetched page with exactly 2 edges
and `has_next_page = false` makes the run append the 2 posts, persist the
collection (length 102), and terminate via the `else` branch — which never
calls `save_resume_state`, so the state file still holds its original
content (cursor `"abc123"`) after the run. -/
theorem C2_final_page_run (net : Net) (output_file resume_file : String)
    (fs : FS) (posts : List PyVal) (n1 n2 : PyVal) (fuel : Nat)
    (hdist : output_file ≠ resume_file)
    (hstate : fs resume_file = some (.json (.dict
      [("after_cursor", .str "abc123"), ("post_count", .int 100)])))
    (hposts : fs output_file = some (.json (.list posts)))
    (hlen : posts.length = 100)
    (hnet : net (some (.str "abc123")) = .response 200 (.json
      (page_of [edge_of n1, edge_of n2] (.dict [("has_next_page", .bool false)])))) :
    iterate_and_save_posts net output_file resume_file (fuel + 1) fs
      = .done ⟨FS.write fs output_file (.json (.list (posts ++ [n1, n2]))),
               .list (posts ++ [n1, n2]), .str "abc123", .int 102⟩ ∧
    (posts ++ [n1, n2]).length = 102 ∧
    FS.write fs output_file (.json (.list (posts ++ [n1, n2]))) resume_file
      = some (.json (.dict [("after_cursor", .str "abc123"), ("post_count", .int 100)])) ∧
    FS.write fs output_file (.json (.list (posts ++ [n1, n2]))) output_file
      = some (.json (.list (posts ++ [n1, n2]))) := by
  refine ⟨?_, by simp [hlen], ?_, by simp [FS.write]⟩
  · simp [iterate_and_save_posts, load_existing_posts, hposts, json_load,
      load_resume_state, hstate, PyVal.get, dictGet, iterate_loop, loop_body,
      fetch_instagram_posts, request_cursor, PyVal.truthy, hnet, page_of, edge_of,
      extract_edges, extract_page_info, connection_of, pyIter, process_edges,
      pyAppend, pyIncr, save_resume_state]
  · simp [FS.write, Ne.symm hdist, hstate]

/-- C2 witness: the scenario run on the concrete filesystem `c2fs` (100
stored posts, cursor `"abc123"`) against the concrete remote `c2net`
(one final page of 2 edges). -/
theorem C2_witness :
    ("posts.json" : String) ≠ "resume.json" ∧
    c2fs "resume.json" = some (.json (.dict
      [("after_cursor", .str "abc123"), ("post_count", .int 100)])) ∧
    c2fs "posts.json" = some (.json (.list c2posts)) ∧
    c2posts.length = 100 ∧
    c2net (some (.str "abc123")) = .response 200 (.json
      (page_of [edge_of (.dict [("id", .str "n1")]), edge_of (.dict [("id", .str "n2")])]
        (.dict [("has_next_page", .bool false)]))) ∧
    (iterate_and_save_posts c2net "posts.json" "resume.json" (0 + 1) c2fs
      = .done ⟨FS.write c2fs "posts.json"
                 (.json (.list (c2posts ++ [.dict [("id", .str "n1")], .dict [("id", .str "n2")]]))),
               .list (c2posts ++ [.dict [("id", .str "n1")], .dict [("id", .str "n2")]]),
               .str "abc123", .int 102⟩ ∧
      (c2posts ++ [PyVal.dict [("id", .str "n1")], PyVal.dict [("id", .str "n2")]]).length = 102 ∧
      FS.write c2fs "posts.json"
          (.json (.list (c2posts ++ [.dict [("id", .str "n1")], .dict [("id", .str "n2")]])))
          "resume.json"
        = some (.json (.dict [("after_cursor", .str "abc123"), ("post_count", .int 100)])) ∧
      FS.write c2fs "posts.json"
          (.json (.list (c2posts ++ [.dict [("id", .str "n1")], .dict [("id", .str "n2")]])))
          "posts.json"
        = some (.json (.list (c2posts ++ [.dict [("id", .str "n1")], .dict [("id", .str "n2")]])))) :=
  ⟨by decide, rfl, rfl, by simp [c2posts], rfl,
    C2_final_page_run c2net "posts.json" "resume.json" c2fs c2posts _ _ 0
      (by decide) rfl rfl (by simp [c2posts]) rfl⟩

/-! ### Claim C3 -/

/-- A `next` transition leaves the two checkpoint files in agreement with
the in-memory locals: the posts file holds exactly `allPosts` and the
state file reloads to `(afterCursor, downloadedCount)`. Requires the two
file paths to differ (as they do in the entry point). -/
theorem loop_body_next_persist (net : Net) (o r : String) (s s' : LoopState)
    (hdist : o ≠ r)
    (h : loop_body net o r s = .ok (.next s')) : PersistInv o r s' := by
  unfold loop_body at h
  dsimp only at h
  iterate 12 (all_goals try split at h)
  all_goals simp at h
  subst h
  constructor
  · simp [load_existing_posts, save_resume_state, FS.write, json_load, hdist]
  · simp [load_resume_state, save_resume_state, FS.write, json_load, PyVal.get, dictGet]

/-- Fuel composition: a run that exhausts `N` fuel mid-pagination at state
`s'` continues, given `f` more fuel, exactly as a run started with `N + f`
fuel. -/
theorem iterate_loop_add (net : Net) (o r : String) :
    ∀ (N : Nat) (s s' : LoopState),
      iterate_loop net o r N s = RunOutcome.fuelOut s' →
      ∀ f : Nat, iterate_loop net o r (N + f) s = iterate_loop net o r f s' := by
  intro N
  induction N with
  | zero =>
    intro s s' h f
    rw [Nat.zero_add]
    have hs : s = s' := by simpa [iterate_loop] using h
    rw [hs]
  | succ N ih =>
    intro s s' h f
    rw [Nat.succ_add]
    cases hb : loop_body net o r s with
    | error p =>
      obtain ⟨e, fsx⟩ := p
      simp [iterate_loop, hb] at h
    | ok so =>
      cases so with
      | halt s1 => simp [iterate_loop, hb] at h
      | next s1 =>
        simp only [iterate_loop, hb] at h ⊢
        exact ih s1 s' h f

/-- A run interrupted by fuel exhaustion either performed no iteration at
all (its state is the loaded one) or stopped right after a fully
processed page, whose `next` transition re-established `PersistInv`. -/
theorem iterate_loop_fuelOut_persist (net : Net) (o r : String) (hdist : o ≠ r) :
    ∀ (N : Nat) (s s' : LoopState),
      iterate_loop net o r N s = RunOutcome.fuelOut s' →
      s' = s ∨ PersistInv o r s' := by
  intro N
  induction N with
  | zero =>
    intro s s' h
    left
    have hs : s = s' := by simpa [iterate_loop] using h
    exact hs.symm
  | succ N ih =>
    intro s s' h
    cases hb : loop_body net o r s with
    | error p =>
      obtain ⟨e, fsx⟩ := p
      simp [iterate_loop, hb] at h
    | ok so =>
      cases so with
      | halt s1 => simp [iterate_loop, hb] at h
      | next s1 =>
        simp only [iterate_loop, hb] at h
        rcases ih s1 s' h with rfl | hp
        · exact Or.inr (loop_body_next_persist net o r s s' hdist hb)
        · exact Or.inr hp

/-- C3: idempotent resume. Against a stable remote (`net` is a fixed
oracle), a run stopped after `N` fully processed pages (modelled by fuel
`N`: each unit of fuel is one fully processed page, and every processed
page persists both posts and state) and then rerun from the persisted
files behaves exactly like one uninterrupted run given `N + f` fuel — same
outcome, hence the same final post collection. -/
theorem C3_resume_idempotent (net : Net) (o r : String) (fs0 : FS)
    (N : Nat) (sN : LoopState)
    (hdist : o ≠ r)
    (hrun : iterate_and_save_posts net o r N fs0 = .fuelOut sN) :
    ∀ f : Nat, iterate_and_save_posts net o r f sN.fs
      = iterate_and_save_posts net o r (N + f) fs0 := by
  intro f
  unfold iterate_and_save_posts at hrun
  cases hle : load_existing_posts fs0 o with
  | error e => rw [hle] at hrun; simp at hrun
  | ok posts0 =>
    rw [hle] at hrun
    cases hlr : load_resume_state fs0 r with
    | error e => rw [hlr] at hrun; simp at hrun
    | ok ac =>
      obtain ⟨a0, c0⟩ := ac
      rw [hlr] at hrun
      rcases iterate_loop_fuelOut_persist net o r hdist N _ sN hrun with rfl | hp
      · show iterate_and_save_posts net o r f fs0 = _
        unfold iterate_and_save_posts
        rw [hle, hlr]
        exact (iterate_loop_add net o r N _ _ hrun f).symm
      · obtain ⟨hp1, hp2⟩ := hp
        unfold iterate_and_save_posts
        rw [hp1, hp2, hle, hlr]
        exact (iterate_loop_add net o r N _ _ hrun f).symm

/-- C3 witness: against the concrete two-page remote `c3net`, a run
interrupted after 1 page (reaching `c3mid`) and rerun from the persisted
files agrees with the uninterrupted 3-fuel run. -/
theorem C3_witness :
    ("posts.json" : String) ≠ "resume.json" ∧
    iterate_and_save_posts c3net "posts.json" "resume.json" 1 (fun _ => Option.none)
      = .fuelOut c3mid ∧
    iterate_and_save_posts c3net "posts.json" "resume.json" 2 c3mid.fs
      = iterate_and_save_posts c3net "posts.json" "resume.json" (1 + 2)
          (fun _ => Option.none) :=
  ⟨by decide, rfl,
    C3_resume_idempotent c3net "posts.json" "resume.json" (fun _ => Option.none) 1 c3mid
      (by decide) rfl 2⟩

/-! ### Claim C8 -/

/-- Processing a page's edges with an integer running count yields an
integer count at least as large (each edge adds exactly one). -/
theorem process_edges_count :
    ∀ (items : List PyVal) (posts : PyVal) (n : Int) (p c : PyVal),
      process_edges items posts (.int n) = .ok (p, c) →
      ∃ m : Int, c = .int m ∧ n ≤ m := by
  intro items
  induction items with
  | nil =>
    intro posts n p c h
    simp [process_edges] at h
    exact ⟨n, h.2.symm, le_refl n⟩
  | cons e rest ih =>
    intro posts n p c h
    simp only [process_edges] at h
    cases hn : e.get "node" (.dict []) with
    | error er => rw [hn] at h; simp at h
    | ok node =>
      rw [hn] at h
      dsimp only at h
      cases ha : pyAppend posts node with
      | error er => rw [ha] at h; simp at h
      | ok posts' =>
        rw [ha] at h
        dsimp only [pyIncr] at h
        obtain ⟨m, hm, hle⟩ := ih posts' (n + 1) p c h
        exact ⟨m, hm, by omega⟩

/-- Characterisation of a `next` transition: its locals come from
`process_edges` on the incoming locals, and its filesystem is the posts
write followed by the `save_resume_state` write. -/
theorem loop_body_next_shape (net : Net) (o r : String) (s s' : LoopState)
    (h : loop_body net o r s = .ok (.next s')) :
    ∃ (items : List PyVal) (posts' count' cursor' : PyVal),
      process_edges items s.allPosts s.downloadedCount = .ok (posts', count') ∧
      s' = ⟨save_resume_state (s.fs.write o (.json posts')) r cursor' count',
            posts', cursor', count'⟩ := by
  unfold loop_body at h
  dsimp only at h
  iterate 12 (all_goals try split at h)
  all_goals simp at h
  subst h
  exact ⟨_, _, _, _, by assumption, rfl⟩

/-- A `next` transition never decreases an integer running count. -/
theorem loop_body_next_count (net : Net) (o r : String) (s s' : LoopState) (n : Int)
    (hcount : s.downloadedCount = .int n)
    (h : loop_body net o r s = .ok (.next s')) :
    ∃ m : Int, s'.downloadedCount = .int m ∧ n ≤ m := by
  obtain ⟨items, posts', count', cursor', hpe, rfl⟩ := loop_body_next_shape net o r s s' h
  rw [hcount] at hpe
  obtain ⟨m, hm, hle⟩ := process_edges_count items s.allPosts n posts' count' hpe
  exact ⟨m, hm, hle⟩

/-- The instrumented runner agrees with the plain runner on the outcome:
the log component is pure instrumentation. -/
theorem iterate_loop_log_fst (net : Net) (o r : String) :
    ∀ (fuel : Nat) (s : LoopState),
      (iterate_loop_log net o r fuel s).1 = iterate_loop net o r fuel s := by
  intro fuel
  induction fuel with
  | zero => intro s; rfl
  | succ fuel ih =>
    intro s
    cases hb : loop_body net o r s with
    | error p =>
      obtain ⟨e, fsx⟩ := p
      simp [iterate_loop_log, iterate_loop, hb]
    | ok so =>
      cases so with
      | halt s1 => simp [iterate_loop_log, iterate_loop, hb]
      | next s1 => simp [iterate_loop_log, iterate_loop, hb, ih]

/-- Every `post_count` the run persists is an integer at least the count
the run entered with, and the persisted counts are pairwise increasing in
order of writing. -/
theorem iterate_loop_log_bounds (net : Net) (o r : String) :
    ∀ (fuel : Nat) (s : LoopState) (n : Int), s.downloadedCount = .int n →
      (∀ x ∈ (iterate_loop_log net o r fuel s).2, ∃ k : Int, x = .int k ∧ n ≤ k) ∧
      (iterate_loop_log net o r fuel s).2.Pairwise countLE := by
  intro fuel
  induction fuel with
  | zero => intro s n hc; simp [iterate_loop_log]
  | succ fuel ih =>
    intro s n hc
    cases hb : loop_body net o r s with
    | error p =>
      obtain ⟨e, fsx⟩ := p
      simp [iterate_loop_log, hb]
    | ok so =>
      cases so with
      | halt s1 => simp [iterate_loop_log, hb]
      | next s1 =>
        obtain ⟨m, hm, hnm⟩ := loop_body_next_count net o r s s1 n hc hb
        obtain ⟨hbound, hpair⟩ := ih s1 m hm
        constructor
        · intro x hx
          simp only [iterate_loop_log, hb] at hx
          rcases List.mem_cons.mp hx with rfl | hx2
          · exact ⟨m, hm, hnm⟩
          · obtain ⟨k, hk, hmk⟩ := hbound x hx2
            exact ⟨k, hk, le_trans hnm hmk⟩
        · simp only [iterate_loop_log, hb]
          rw [List.pairwise_cons]
          refine ⟨fun x hx => ?_, hpair⟩
          obtain ⟨k, hk, hmk⟩ := hbound x hx
          exact ⟨m, k, hm, hk, hmk⟩

/-- C8: across a run entered with an integer count, the sequence of
`post_count` values written to the state file (recorded by the
instrumented runner, whose outcome provably agrees with the plain one) is
pairwise non-decreasing: every write stores a count at least as large as
every earlier write of the same run. -/
theorem C8_count_monotone (net : Net) (output_file resume_file : String)
    (fuel : Nat) (s : LoopState) (n : Int)
    (hcount : s.downloadedCount = .int n) :
    (iterate_loop_log net output_file resume_file fuel s).1
      = iterate_loop net output_file resume_file fuel s ∧
    (iterate_loop_log net output_file resume_file fuel s).2.Pairwise countLE :=
  ⟨iterate_loop_log_fst net output_file resume_file fuel s,
    (iterate_loop_log_bounds net output_file resume_file fuel s n hcount).2⟩

/-- C8 witness: the monotonicity statement applied to a concrete fresh
run against the two-page remote `c3net`. -/
theorem C8_witness :
    (LoopState.downloadedCount ⟨fun _ => Option.none, .list [], PyVal.none, .int 0⟩
        = .int 0) ∧
    ((iterate_loop_log c3net "posts.json" "resume.json" 5
          ⟨fun _ => Option.none, .list [], PyVal.none, .int 0⟩).1
        = iterate_loop c3net "posts.json" "resume.json" 5
            ⟨fun _ => Option.none, .list [], PyVal.none, .int 0⟩ ∧
      (iterate_loop_log c3net "posts.json" "resume.json" 5
          ⟨fun _ => Option.none, .list [], PyVal.none, .int 0⟩).2.Pairwise countLE) :=
  ⟨rfl, C8_count_monotone c3net "posts.json" "resume.json" 5
    ⟨fun _ => Option.none, .list [], PyVal.none, .int 0⟩ 0 rfl⟩
